import Mathlib

set_option maxHeartbeats 1000000

/-!
Verification development for the Ticketify ticket-management repository.

The definitions below are a shallow embedding of the client-side ticket
service/hook layer (frontend `ticketService.ts`, the `useTickets` hook) and
of the backend ticket controller (the in-memory collection with its CRUD
handlers).  Machine timestamps are modelled as `Nat` (milliseconds), JS
`null`/`undefined` as `Option`, thrown JS errors as `Except String`, and the
remote round trip of each store operation as an explicit
`Except String _` argument carrying the response of the awaited call.
-/

/-- Priority levels of a ticket, from the frontend `Priority` union type. -/
inductive Priority where
  | LOW
  | MEDIUM
  | HIGH
  | URGENT
  deriving DecidableEq, Repr

/-- Status values of a ticket, from the frontend `Status` union type. -/
inductive Status where
  | SCHEDULED
  | IN_PROGRESS
  | ACTIVE
  | OVERDUE
  | COMPLETED
  deriving DecidableEq, Repr

/-- Customer classification, from the frontend `CustomerType` union type. -/
inductive CustomerType where
  | ENTERPRISE
  | SMB
  | STARTUP
  deriving DecidableEq, Repr

/-- A subtask of a ticket, from the frontend `Subtask` interface. -/
structure Subtask where
  id : String
  text : String
  completed : Bool
  completedAt : Option Nat
  deriving DecidableEq, Repr

/-- A ticket record, from the frontend `Ticket` interface (the backend stores
objects with the same fields). -/
structure Ticket where
  id : String
  ticketId : String
  title : String
  description : String
  priority : Priority
  status : Status
  category : String
  deadline : Nat
  completedAt : Option Nat
  createdAt : Nat
  updatedAt : Nat
  csamName : String
  tpid : String
  agreementId : String
  customerName : String
  customerType : CustomerType
  notes : List String
  subtasks : List Subtask
  assignedTo : Option String
  tags : List String
  deriving DecidableEq, Repr

/-- The body of a create request as the JS runtime sees it: each field may be
absent (`none`).  `ticketId` and `title` are plain strings because the code
only ever distinguishes them by JS falsiness, where absent and `""` coincide. -/
structure CreateInput where
  ticketId : String := ""
  title : String := ""
  description : Option String := none
  priority : Option Priority := none
  status : Option Status := none
  category : Option String := none
  deadline : Option Nat := none
  csamName : Option String := none
  tpid : Option String := none
  agreementId : Option String := none
  customerName : Option String := none
  customerType : Option CustomerType := none
  notes : Option (List String) := none
  subtasks : Option (List Subtask) := none
  assignedTo : Option String := none
  tags : Option (List String) := none
  deriving DecidableEq, Repr

/-- A partial update payload (`TicketUpdateInput` body after JSON encoding):
an outer `none` means the field is absent from the payload.  `id` and
`createdAt` can be present, mirroring a payload that tries to mutate them. -/
structure UpdatePayload where
  id : Option String := none
  createdAt : Option Nat := none
  ticketId : Option String := none
  title : Option String := none
  description : Option String := none
  priority : Option Priority := none
  status : Option Status := none
  category : Option String := none
  deadline : Option Nat := none
  completedAt : Option (Option Nat) := none
  updatedAt : Option Nat := none
  csamName : Option String := none
  tpid : Option String := none
  agreementId : Option String := none
  customerName : Option String := none
  customerType : Option CustomerType := none
  notes : Option (List String) := none
  subtasks : Option (List Subtask) := none
  assignedTo : Option (Option String) := none
  tags : Option (List String) := none
  deriving DecidableEq, Repr

/-- Filter specification, from the frontend `TicketFilters` interface. -/
structure TicketFilters where
  status : Option (List Status) := none
  priority : Option (List Priority) := none
  category : Option (List String) := none
  csamName : Option (List String) := none
  customerName : Option String := none
  assignedTo : Option String := none
  tags : Option (List String) := none
  search : Option String := none
  deriving DecidableEq, Repr

/-- ASCII lower-casing of a string, embedding `String.prototype.toLowerCase`. -/
def lowerStr (s : String) : String :=
  String.mk (s.data.map Char.toLower)

/-- Whether the first list is an initial segment of the second; the base step
of the JS `String.prototype.includes` substring primitive. -/
def startsWithList : List Char → List Char → Bool
  | [], _ => true
  | _ :: _, [] => false
  | c :: cs, d :: ds => c == d && startsWithList cs ds

/-- Whether `needle` occurs contiguously inside the second list; embedding of
the JS `String.prototype.includes` substring primitive. -/
def occursInList (needle : List Char) : List Char → Bool
  | [] => startsWithList needle []
  | d :: ds => startsWithList needle (d :: ds) || occursInList needle ds

/-- JS `hay.includes(needle)` on strings. -/
def strContains (hay needle : String) : Bool :=
  occursInList needle.data hay.data

/-- JS `String.prototype.trim`: whitespace stripped from both ends. -/
def trimChars (s : String) : String :=
  String.mk ((s.data.dropWhile Char.isWhitespace).reverse.dropWhile Char.isWhitespace).reverse

namespace Backend

/-- The ticket object built by the backend `createTicket` handler from the
request body: `generateId`'s result and the server clock come in as
arguments, every `x || d` defaulting of the source is an `Option.getD`. -/
def newTicket (body : CreateInput) (newId : String) (now : Nat) : Ticket :=
  { id := newId
    ticketId := body.ticketId
    title := body.title
    description := body.description.getD ""
    priority := body.priority.getD Priority.MEDIUM
    status := body.status.getD Status.SCHEDULED
    category := body.category.getD "General"
    deadline := body.deadline.getD now
    completedAt := none
    createdAt := now
    updatedAt := now
    csamName := body.csamName.getD ""
    tpid := body.tpid.getD ""
    agreementId := body.agreementId.getD ""
    customerName := body.customerName.getD ""
    customerType := body.customerType.getD CustomerType.SMB
    notes := body.notes.getD []
    subtasks := body.subtasks.getD []
    assignedTo :=
      match body.assignedTo with
      | some s => if s = "" then none else some s
      | none => none
    tags := body.tags.getD [] }

/-- Backend `createTicket` handler (`POST /api/tickets`): validates the two
required fields by JS falsiness, rejects a duplicate `ticketId`, then pushes
the new ticket onto the collection. -/
def createTicket (db : List Ticket) (body : CreateInput) (newId : String) (now : Nat) :
    Except String (List Ticket × Ticket) :=
  if body.ticketId = "" ∨ body.title = "" then
    Except.error "Ticket ID and title are required"
  else if db.any (fun t => t.ticketId == body.ticketId) then
    Except.error "Ticket ID already exists"
  else
    let t := newTicket body newId now
    Except.ok (db ++ [t], t)

/-- The merged ticket built by the backend `updateTicket` handler: the spread
of the stored ticket under the payload, after `delete updateData.id` and
`delete updateData.createdAt`, with the trailing explicit `updatedAt` and
`completedAt` fields of the object literal overriding everything. -/
def applyUpdate (t : Ticket) (u : UpdatePayload) (now : Nat) : Ticket :=
  { id := t.id
    ticketId := u.ticketId.getD t.ticketId
    title := u.title.getD t.title
    description := u.description.getD t.description
    priority := u.priority.getD t.priority
    status := u.status.getD t.status
    category := u.category.getD t.category
    deadline := u.deadline.getD t.deadline
    completedAt := if u.status = some Status.COMPLETED then some now else t.completedAt
    createdAt := t.createdAt
    updatedAt := now
    csamName := u.csamName.getD t.csamName
    tpid := u.tpid.getD t.tpid
    agreementId := u.agreementId.getD t.agreementId
    customerName := u.customerName.getD t.customerName
    customerType := u.customerType.getD t.customerType
    notes := u.notes.getD t.notes
    subtasks := u.subtasks.getD t.subtasks
    assignedTo := u.assignedTo.getD t.assignedTo
    tags := u.tags.getD t.tags }

/-- Backend `updateTicket` handler (`PUT /api/tickets/:id`): finds the first
ticket with the given id (`findIndex`), replaces it in place with the merged
object, and answers 404 (`none`) when the id is absent. -/
def updateTicket : List Ticket → String → UpdatePayload → Nat →
    Option (List Ticket × Ticket)
  | [], _, _, _ => none
  | t :: rest, tid, u, now =>
    if t.id = tid then
      let t2 := applyUpdate t u now
      some (t2 :: rest, t2)
    else
      match updateTicket rest tid u now with
      | none => none
      | some (rest2, t2) => some (t :: rest2, t2)

/-- Backend `deleteTicket` handler (`DELETE /api/tickets/:id`): splices out
the first ticket with the given id, answering 404 (`none`) when absent. -/
def deleteTicket : List Ticket → String → Option (List Ticket)
  | [], _ => none
  | t :: rest, tid =>
    if t.id = tid then some rest
    else (deleteTicket rest tid).map (fun rest2 => t :: rest2)

/-- Backend `getTickets` handler (`GET /api/tickets`): the whole collection. -/
def getTickets (db : List Ticket) : List Ticket := db

end Backend

namespace Svc

/-- The searchable text of the full-text `search` filter in the service's
`fetchTickets`: the five fields joined with spaces. -/
def searchTextOf (t : Ticket) : String :=
  String.intercalate " " [t.title, t.description, t.ticketId, t.customerName, t.csamName]

/-- The filter predicate of the service's `fetchTickets`: the body of the
`tickets.filter` callback, one early-return clause per filter field.  The JS
truthiness guards (`filters.x && filters.x.length > 0`, `if (filters.x)`)
become the `isEmpty`/empty-string disjuncts. -/
def matchesFilters (filters : TicketFilters) (t : Ticket) : Bool :=
  (match filters.status with
   | some l => l.isEmpty || l.contains t.status
   | none => true) &&
  (match filters.priority with
   | some l => l.isEmpty || l.contains t.priority
   | none => true) &&
  (match filters.category with
   | some l => l.isEmpty || l.contains t.category
   | none => true) &&
  (match filters.csamName with
   | some l => l.isEmpty || l.contains t.csamName
   | none => true) &&
  (match filters.customerName with
   | some s => s == "" || strContains (lowerStr t.customerName) (lowerStr s)
   | none => true) &&
  (match filters.assignedTo with
   | some s => s == "" || t.assignedTo == some s
   | none => true) &&
  (match filters.tags with
   | some l => l.isEmpty || l.any (fun tag => t.tags.contains tag)
   | none => true) &&
  (match filters.search with
   | some s => s == "" || strContains (lowerStr (searchTextOf t)) (lowerStr s)
   | none => true)

/-- Service `fetchTickets`: the remote list (already fetched, passed in as
`tickets`) filtered by the optional filter specification. -/
def fetchTickets (tickets : List Ticket) (filters : Option TicketFilters) : List Ticket :=
  match filters with
  | none => tickets
  | some f => tickets.filter (matchesFilters f)

/-- Service `createTicket`: validates `title` and `ticketId` before any
network call, then fills in the defaulted optional fields of the body it
sends to the API. -/
def createTicket (input : CreateInput) : Except String CreateInput :=
  if trimChars input.title = "" then
    Except.error "Ticket title is required"
  else if trimChars input.ticketId = "" then
    Except.error "Ticket ID is required"
  else
    Except.ok { input with
      priority := some (input.priority.getD Priority.MEDIUM)
      status := some (input.status.getD Status.SCHEDULED)
      notes := some (input.notes.getD [])
      tags := some (input.tags.getD [])
      subtasks := some (input.subtasks.getD []) }

/-- The payload built by the service's `updateTicketStatus`: a minimal
partial update; the `completedAt` hint survives JSON encoding only when the
target status is COMPLETED (`undefined` is dropped by `JSON.stringify`). -/
def updateTicketStatusPayload (tid : String) (s : Status) (clientNow : Nat) : UpdatePayload :=
  { id := some tid
    status := some s
    completedAt := if s = Status.COMPLETED then some (some clientNow) else none }

end Svc

/-- State of the `useTickets` hook: the cached collection, the loading flag
and the last error message. -/
structure StoreState where
  tickets : List Ticket
  loading : Bool
  lastError : Option String
  deriving DecidableEq, Repr

namespace Hook

/-- The hook's `fetchTickets` (exposed as `refreshTickets`): on success the
fetched list replaces the cache and the error is the `null` set at entry; on
a caught fault the cache is untouched and the message is recorded.  `finally`
clears `loading` either way. -/
def fetchTickets (st : StoreState) (remote : Except String (List Ticket)) : StoreState :=
  match remote with
  | Except.ok ts => { tickets := ts, loading := false, lastError := none }
  | Except.error msg => { tickets := st.tickets, loading := false, lastError := some msg }

/-- The hook's `addTicket`: appends the ticket the service returned, or
catches the fault, records the message and resolves with `null` (`none`). -/
def addTicket (st : StoreState) (r : Except String Ticket) : StoreState × Option Ticket :=
  match r with
  | Except.ok t => ({ st with tickets := st.tickets ++ [t], lastError := none }, some t)
  | Except.error msg => ({ st with lastError := some msg }, none)

/-- The hook's `updateTicket`: maps the cache, substituting the returned
ticket for the entry with the same id, or catches the fault and resolves
with `null` (`none`). -/
def updateTicket (st : StoreState) (r : Except String Ticket) : StoreState × Option Ticket :=
  match r with
  | Except.ok t2 =>
    ({ st with
        tickets := st.tickets.map (fun t => if t.id = t2.id then t2 else t)
        lastError := none }, some t2)
  | Except.error msg => ({ st with lastError := some msg }, none)

/-- The hook's `deleteTicket`: filters the deleted id out of the cache and
resolves `true`, or catches the fault, records it and resolves `false`. -/
def deleteTicket (st : StoreState) (tid : String) (r : Except String Unit) :
    StoreState × Bool :=
  match r with
  | Except.ok _ =>
    ({ st with tickets := st.tickets.filter (fun t => t.id != tid), lastError := none }, true)
  | Except.error msg => ({ st with lastError := some msg }, false)

end Hook

/-- Outcome of the whole client-side create chain: the value the awaited
service call settles with, the server collection afterwards, and whether the
remote API was contacted at all. -/
structure CreateOutcome where
  result : Except String Ticket
  db : List Ticket
  apiCalled : Bool
  deriving Repr

/-- The create chain the hook awaits: service validation and defaulting,
then, only when validation passes, the backend `createTicket` handler with a
fresh `generateId` value and the server clock. -/
def clientCreate (input : CreateInput) (db : List Ticket) (newId : String) (now : Nat) :
    CreateOutcome :=
  match Svc.createTicket input with
  | Except.error msg => { result := Except.error msg, db := db, apiCalled := false }
  | Except.ok body =>
    match Backend.createTicket db body newId now with
    | Except.error msg => { result := Except.error msg, db := db, apiCalled := true }
    | Except.ok (db2, t) => { result := Except.ok t, db := db2, apiCalled := true }

/-- Spec-side predicate (§4.2): `needle` occurs, case-insensitively, as a
contiguous substring of `text`. -/
def OccursCI (needle text : String) : Prop :=
  ∃ l r, (lowerStr text).data = l ++ ((lowerStr needle).data ++ r)

/-- Spec-side reading of the filter semantics (§4.2): every provided,
non-empty filter field constrains the ticket, and the fields combine with
logical AND. -/
def FilterSpecSat (f : TicketFilters) (t : Ticket) : Prop :=
  (∀ l, f.status = some l → l ≠ [] → t.status ∈ l) ∧
  (∀ l, f.priority = some l → l ≠ [] → t.priority ∈ l) ∧
  (∀ l, f.category = some l → l ≠ [] → t.category ∈ l) ∧
  (∀ l, f.csamName = some l → l ≠ [] → t.csamName ∈ l) ∧
  (∀ s, f.customerName = some s → s ≠ "" → OccursCI s t.customerName) ∧
  (∀ s, f.assignedTo = some s → s ≠ "" → t.assignedTo = some s) ∧
  (∀ l, f.tags = some l → l ≠ [] → ∃ tag, tag ∈ l ∧ tag ∈ t.tags) ∧
  (∀ s, f.search = some s → s ≠ "" → OccursCI s (Svc.searchTextOf t))

/-- Modelled from the spec: the repository only declares the derived field
`completedSubtasksCount` (interface `TicketWithMetadata` in
`types/ticket.ts`); the code computing it is not among the source files, so
this follows the spec's words in §4.3. -/
def completedSubtasksCount (t : Ticket) : Nat :=
  (t.subtasks.filter (fun s => s.completed)).length

/-- Modelled from the spec: the repository only declares the derived field
`totalSubtasksCount` (interface `TicketWithMetadata`); modelled from §4.3. -/
def totalSubtasksCount (t : Ticket) : Nat :=
  t.subtasks.length

/-- Modelled from the spec: the repository only declares the derived field
`completionPercentage` (interface `TicketWithMetadata`); §4.3 defines it as
the completed-subtask count divided by the total subtask count, scaled to
0 to 100, and 0 when there are no subtasks. -/
def completionPercentage (t : Ticket) : ℚ :=
  if t.subtasks.length = 0 then 0
  else ((completedSubtasksCount t : ℚ) / (totalSubtasksCount t : ℚ)) * 100

theorem startsWithList_iff (n h : List Char) :
    startsWithList n h = true ↔ ∃ r, h = n ++ r := by
  induction n generalizing h with
  | nil => simp [startsWithList]
  | cons c cs ih =>
    cases h with
    | nil => simp [startsWithList]
    | cons d ds =>
      simp only [startsWithList, Bool.and_eq_true, beq_iff_eq, ih, List.cons_append,
        List.cons.injEq]
      constructor
      · rintro ⟨rfl, r, rfl⟩
        exact ⟨r, rfl, rfl⟩
      · rintro ⟨r, rfl, rfl⟩
        exact ⟨rfl, r, rfl⟩

theorem occursInList_iff (n h : List Char) :
    occursInList n h = true ↔ ∃ l r, h = l ++ (n ++ r) := by
  induction h with
  | nil =>
    simp only [occursInList, startsWithList_iff]
    constructor
    · rintro ⟨r, hr⟩
      exact ⟨[], r, by simpa using hr⟩
    · rintro ⟨l, r, hr⟩
      have h2 := List.append_eq_nil.mp hr.symm
      have h3 := List.append_eq_nil.mp h2.2
      exact ⟨[], by simp [h3.1]⟩
  | cons d ds ih =>
    simp only [occursInList, Bool.or_eq_true, startsWithList_iff, ih]
    constructor
    · rintro (⟨r, hr⟩ | ⟨l, r, hr⟩)
      · exact ⟨[], r, by simpa using hr⟩
      · exact ⟨d :: l, r, by simp [hr]⟩
    · rintro ⟨l, r, hr⟩
      cases l with
      | nil => exact Or.inl ⟨r, by simpa using hr⟩
      | cons x xs =>
        simp only [List.cons_append, List.cons.injEq] at hr
        exact Or.inr ⟨xs, r, hr.2⟩

theorem strContains_iff (hay needle : String) :
    strContains hay needle = true ↔ ∃ l r, hay.data = l ++ (needle.data ++ r) :=
  occursInList_iff needle.data hay.data

theorem strContains_lower_iff (needle text : String) :
    strContains (lowerStr text) (lowerStr needle) = true ↔ OccursCI needle text :=
  strContains_iff (lowerStr text) (lowerStr needle)

theorem listOrClause {α : Type} [DecidableEq α] (l : List α) (x : α) :
    (l.isEmpty || l.contains x) = true ↔ (l ≠ [] → x ∈ l) := by
  simp only [Bool.or_eq_true, List.isEmpty_iff, List.contains, List.elem_eq_mem,
    decide_eq_true_eq]
  constructor
  · rintro (rfl | hx) hne
    · exact absurd rfl hne
    · exact hx
  · intro himp
    by_cases hl : l = []
    · exact Or.inl hl
    · exact Or.inr (himp hl)

theorem strOrClause (s hay0 : String) :
    (s == "" || strContains (lowerStr hay0) (lowerStr s)) = true ↔
      (s ≠ "" → OccursCI s hay0) := by
  simp only [Bool.or_eq_true, beq_iff_eq, strContains_lower_iff]
  constructor
  · rintro (rfl | hx) hne
    · exact absurd rfl hne
    · exact hx
  · intro himp
    by_cases hs : s = ""
    · exact Or.inl hs
    · exact Or.inr (himp hs)

theorem optOrClause (s : String) (o : Option String) :
    (s == "" || o == some s) = true ↔ (s ≠ "" → o = some s) := by
  simp only [Bool.or_eq_true, beq_iff_eq]
  constructor
  · rintro (rfl | hx) hne
    · exact absurd rfl hne
    · exact hx
  · intro himp
    by_cases hs : s = ""
    · exact Or.inl hs
    · exact Or.inr (himp hs)

theorem tagsOrClause (l tags0 : List String) :
    (l.isEmpty || l.any (fun tag => tags0.contains tag)) = true ↔
      (l ≠ [] → ∃ tag, tag ∈ l ∧ tag ∈ tags0) := by
  simp only [Bool.or_eq_true, List.isEmpty_iff, List.any_eq_true, List.contains,
    List.elem_eq_mem, decide_eq_true_eq]
  constructor
  · rintro (rfl | ⟨tag, hm, hx⟩) hne
    · exact absurd rfl hne
    · exact ⟨tag, hm, hx⟩
  · intro himp
    by_cases hl : l = []
    · exact Or.inl hl
    · obtain ⟨tag, hm, hx⟩ := himp hl
      exact Or.inr ⟨tag, hm, hx⟩

theorem matchesFilters_iff (f : TicketFilters) (t : Ticket) :
    Svc.matchesFilters f t = true ↔ FilterSpecSat f t := by
  unfold Svc.matchesFilters FilterSpecSat
  simp only [Bool.and_eq_true, and_assoc]
  refine and_congr ?_ (and_congr ?_ (and_congr ?_ (and_congr ?_ (and_congr ?_
    (and_congr ?_ (and_congr ?_ ?_))))))
  · cases h : f.status with
    | none => simp
    | some l => simpa using listOrClause l t.status
  · cases h : f.priority with
    | none => simp
    | some l => simpa using listOrClause l t.priority
  · cases h : f.category with
    | none => simp
    | some l => simpa using listOrClause l t.category
  · cases h : f.csamName with
    | none => simp
    | some l => simpa using listOrClause l t.csamName
  · cases h : f.customerName with
    | none => simp
    | some s => simpa using strOrClause s t.customerName
  · cases h : f.assignedTo with
    | none => simp
    | some s => simpa using optOrClause s t.assignedTo
  · cases h : f.tags with
    | none => simp
    | some l => simpa using tagsOrClause l t.tags
  · cases h : f.search with
    | none => simp
    | some s => simpa using strOrClause s (Svc.searchTextOf t)

theorem applyUpdate_id (t : Ticket) (u : UpdatePayload) (now : Nat) :
    (Backend.applyUpdate t u now).id = t.id := rfl

theorem updateTicket_shape (ts : List Ticket) (tid : String) (u : UpdatePayload)
    (now : Nat) (ts2 : List Ticket) (t2 : Ticket)
    (h : Backend.updateTicket ts tid u now = some (ts2, t2)) :
    ∃ t0, t0 ∈ ts ∧ t0.id = tid ∧ t2 = Backend.applyUpdate t0 u now := by
  induction ts generalizing ts2 t2 with
  | nil => simp [Backend.updateTicket] at h
  | cons t rest ih =>
    by_cases ht : t.id = tid
    · simp only [Backend.updateTicket, if_pos ht, Option.some.injEq, Prod.mk.injEq] at h
      exact ⟨t, List.mem_cons_self t rest, ht, h.2.symm⟩
    · simp only [Backend.updateTicket, if_neg ht] at h
      cases hrec : Backend.updateTicket rest tid u now with
      | none => rw [hrec] at h; simp at h
      | some p =>
        obtain ⟨rest2, t1⟩ := p
        rw [hrec] at h
        simp only [Option.some.injEq, Prod.mk.injEq] at h
        obtain ⟨t0, hm, hid, heq⟩ := ih rest2 t1 hrec
        exact ⟨t0, List.mem_cons_of_mem t hm, hid, h.2 ▸ heq⟩

theorem updateTicket_chain (ts : List Ticket) (tid : String) (u1 u2 : UpdatePayload)
    (n1 n2 : Nat) (ts1 : List Ticket) (t1 : Ticket)
    (h : Backend.updateTicket ts tid u1 n1 = some (ts1, t1)) :
    ∃ ts2, Backend.updateTicket ts1 tid u2 n2 =
      some (ts2, Backend.applyUpdate t1 u2 n2) := by
  induction ts generalizing ts1 t1 with
  | nil => simp [Backend.updateTicket] at h
  | cons t rest ih =>
    by_cases ht : t.id = tid
    · simp only [Backend.updateTicket, if_pos ht, Option.some.injEq, Prod.mk.injEq] at h
      obtain ⟨hts, ht1⟩ := h
      subst hts
      subst ht1
      refine ⟨Backend.applyUpdate (Backend.applyUpdate t u1 n1) u2 n2 :: rest, ?_⟩
      have hid : (Backend.applyUpdate t u1 n1).id = tid := ht
      simp [Backend.updateTicket, if_pos hid]
    · simp only [Backend.updateTicket, if_neg ht] at h
      cases hrec : Backend.updateTicket rest tid u1 n1 with
      | none => rw [hrec] at h; simp at h
      | some p =>
        obtain ⟨rest1, t1'⟩ := p
        rw [hrec] at h
        simp only [Option.some.injEq, Prod.mk.injEq] at h
        obtain ⟨hts, ht1⟩ := h
        subst hts
        subst ht1
        obtain ⟨ts2, hts2⟩ := ih rest1 t1' hrec
        exact ⟨t :: ts2, by simp [Backend.updateTicket, if_neg ht, hts2]⟩

theorem updateTicket_map_id (ts : List Ticket) (tid : String) (u : UpdatePayload)
    (now : Nat) (ts2 : List Ticket) (t2 : Ticket)
    (h : Backend.updateTicket ts tid u now = some (ts2, t2)) :
    ts2.map Ticket.id = ts.map Ticket.id := by
  induction ts generalizing ts2 t2 with
  | nil => simp [Backend.updateTicket] at h
  | cons t rest ih =>
    by_cases ht : t.id = tid
    · simp only [Backend.updateTicket, if_pos ht, Option.some.injEq, Prod.mk.injEq] at h
      rw [← h.1]
      simp [applyUpdate_id]
    · simp only [Backend.updateTicket, if_neg ht] at h
      cases hrec : Backend.updateTicket rest tid u now with
      | none => rw [hrec] at h; simp at h
      | some p =>
        obtain ⟨rest2, t1⟩ := p
        rw [hrec] at h
        simp only [Option.some.injEq, Prod.mk.injEq] at h
        rw [← h.1]
        simp [ih rest2 t1 hrec]

theorem deleteTicket_map_sublist (ts : List Ticket) (tid : String) (ts2 : List Ticket)
    (h : Backend.deleteTicket ts tid = some ts2) (g : Ticket → String) :
    (ts2.map g).Sublist (ts.map g) := by
  induction ts generalizing ts2 with
  | nil => simp [Backend.deleteTicket] at h
  | cons t rest ih =>
    by_cases ht : t.id = tid
    · simp only [Backend.deleteTicket, if_pos ht, Option.some.injEq] at h
      subst h
      simp only [List.map_cons]
      exact List.sublist_cons_self (g t) (rest.map g)
    · simp only [Backend.deleteTicket, if_neg ht] at h
      cases hrec : Backend.deleteTicket rest tid with
      | none => rw [hrec] at h; simp at h
      | some rest2 =>
        rw [hrec] at h
        simp only [Option.map_some', Option.some.injEq] at h
        subst h
        simp only [List.map_cons]
        exact List.Sublist.cons₂ (g t) (ih rest2 hrec)

/-- A concrete ticket used by the closed example theorems, following the
first seeded record of the backend's in-memory collection. -/
def exTicket : Ticket :=
  { id := "1"
    ticketId := "TCK-001"
    title := "Implement user authentication"
    description := "Add login and registration functionality"
    priority := Priority.HIGH
    status := Status.SCHEDULED
    category := "Feature"
    deadline := 100
    completedAt := none
    createdAt := 10
    updatedAt := 10
    csamName := "John Doe"
    tpid := "TP-001"
    agreementId := "AGR-001"
    customerName := "Acme Corp"
    customerType := CustomerType.ENTERPRISE
    notes := []
    subtasks := []
    assignedTo := some "user-1"
    tags := ["auth", "security"] }

/-- Payload setting status to COMPLETED, as `updateTicketStatus` sends it. -/
def wU1 : UpdatePayload := { status := some Status.COMPLETED }

/-- Payload moving the status away from COMPLETED. -/
def wU2 : UpdatePayload := { status := some Status.ACTIVE }

/-- The stored ticket after the COMPLETED update of the example. -/
def wT1 : Ticket := Backend.applyUpdate exTicket wU1 7

/-- The stored ticket after the follow-up ACTIVE update of the example. -/
def wT2 : Ticket := Backend.applyUpdate wT1 wU2 9

/-- C1: an update whose payload sets status to COMPLETED leaves the stored
ticket with a non-null completedAt, and a subsequent update that sets any
non-COMPLETED status leaves that completedAt unchanged (it is not cleared). -/
theorem update_completed_then_away_keeps_completedAt
    (ts ts1 ts2 : List Ticket) (tid : String) (u1 u2 : UpdatePayload)
    (n1 n2 : Nat) (t1 t2 : Ticket) (s : Status)
    (hu1 : u1.status = some Status.COMPLETED)
    (h1 : Backend.updateTicket ts tid u1 n1 = some (ts1, t1))
    (hu2 : u2.status = some s) (hs : s ≠ Status.COMPLETED)
    (h2 : Backend.updateTicket ts1 tid u2 n2 = some (ts2, t2)) :
    t1.completedAt = some n1 ∧ t2.completedAt = some n1 := by
  obtain ⟨t0, _, _, ht1⟩ := updateTicket_shape ts tid u1 n1 ts1 t1 h1
  have hc1 : t1.completedAt = some n1 := by
    rw [ht1]
    simp [Backend.applyUpdate, hu1]
  obtain ⟨ts2', h2'⟩ := updateTicket_chain ts tid u1 u2 n1 n2 ts1 t1 h1
  have h3 := h2'.symm.trans h2
  simp only [Option.some.injEq, Prod.mk.injEq] at h3
  rw [← h3.2]
  refine ⟨hc1, ?_⟩
  simp [Backend.applyUpdate, hu2, hs, hc1]

/-- Closed instance of C1 at a concrete two-step update of the seeded
ticket: completedAt is stamped by the COMPLETED update and survives the
later ACTIVE update. -/
theorem update_completed_then_away_keeps_completedAt_witness :
    wT1.completedAt = some 7 ∧ wT2.completedAt = some 7 :=
  update_completed_then_away_keeps_completedAt [exTicket] [wT1] [wT2] "1" wU1 wU2
    7 9 wT1 wT2 Status.ACTIVE rfl rfl rfl (by decide) rfl

/-- C3: every hook operation catches its fault at the boundary: on failure
the cached ticket collection is untouched, the error slot holds the message,
and the caller receives the documented success/failure result (void, null
ticket, null ticket, false) instead of an unhandled rejection — each
operation is a total function of the settled remote response. -/
theorem store_ops_fail_leave_tickets_set_error (st : StoreState) (msg : String)
    (tid : String) :
    Hook.fetchTickets st (Except.error msg) =
      { tickets := st.tickets, loading := false, lastError := some msg } ∧
    Hook.addTicket st (Except.error msg) = ({ st with lastError := some msg }, none) ∧
    Hook.updateTicket st (Except.error msg) = ({ st with lastError := some msg }, none) ∧
    Hook.deleteTicket st tid (Except.error msg) = ({ st with lastError := some msg }, false) :=
  ⟨rfl, rfl, rfl, rfl⟩

/-- C6: an update never mutates the stored id or createdAt — the handler
deletes them from the payload — and every other stored field that the
payload does not name is unchanged, apart from the server-controlled
updatedAt (and completedAt, treated in the completedAt theorems). -/
theorem update_frame_fields (t : Ticket) (u : UpdatePayload) (now : Nat) :
    (Backend.applyUpdate t u now).id = t.id ∧
    (Backend.applyUpdate t u now).createdAt = t.createdAt ∧
    (Backend.applyUpdate t u now).updatedAt = now ∧
    (u.ticketId = none → (Backend.applyUpdate t u now).ticketId = t.ticketId) ∧
    (u.title = none → (Backend.applyUpdate t u now).title = t.title) ∧
    (u.description = none → (Backend.applyUpdate t u now).description = t.description) ∧
    (u.priority = none → (Backend.applyUpdate t u now).priority = t.priority) ∧
    (u.status = none → (Backend.applyUpdate t u now).status = t.status) ∧
    (u.category = none → (Backend.applyUpdate t u now).category = t.category) ∧
    (u.deadline = none → (Backend.applyUpdate t u now).deadline = t.deadline) ∧
    (u.csamName = none → (Backend.applyUpdate t u now).csamName = t.csamName) ∧
    (u.tpid = none → (Backend.applyUpdate t u now).tpid = t.tpid) ∧
    (u.agreementId = none → (Backend.applyUpdate t u now).agreementId = t.agreementId) ∧
    (u.customerName = none → (Backend.applyUpdate t u now).customerName = t.customerName) ∧
    (u.customerType = none → (Backend.applyUpdate t u now).customerType = t.customerType) ∧
    (u.notes = none → (Backend.applyUpdate t u now).notes = t.notes) ∧
    (u.subtasks = none → (Backend.applyUpdate t u now).subtasks = t.subtasks) ∧
    (u.assignedTo = none → (Backend.applyUpdate t u now).assignedTo = t.assignedTo) ∧
    (u.tags = none → (Backend.applyUpdate t u now).tags = t.tags) := by
  refine ⟨rfl, rfl, rfl, ?_, ?_, ?_, ?_, ?_, ?_, ?_, ?_, ?_, ?_, ?_, ?_, ?_, ?_, ?_, ?_⟩ <;>
    (intro h; simp [Backend.applyUpdate, h])

/-- A payload that tries to overwrite id and createdAt while renaming the
title, used as the concrete frame example. -/
def wFramePayload : UpdatePayload :=
  { id := some "999", createdAt := some 0, title := some "Renamed" }

/-- Closed instance of C6: against a payload carrying id and createdAt, the
stored id, createdAt and the unnamed status field keep their values. -/
theorem update_frame_fields_witness :
    (Backend.applyUpdate exTicket wFramePayload 5).id = exTicket.id ∧
    (Backend.applyUpdate exTicket wFramePayload 5).createdAt = exTicket.createdAt ∧
    (Backend.applyUpdate exTicket wFramePayload 5).status = exTicket.status :=
  ⟨(update_frame_fields exTicket wFramePayload 5).1,
   (update_frame_fields exTicket wFramePayload 5).2.1,
   (update_frame_fields exTicket wFramePayload 5).2.2.2.2.2.2.2.1 rfl⟩

/-- C10: the handler stamps completedAt with the server clock exactly when
the payload's status field equals COMPLETED — also re-stamping a ticket that
is already COMPLETED — and otherwise preserves the stored value verbatim,
even against the explicit completedAt hint that `updateTicketStatus` sends. -/
theorem update_completedAt_stamp_iff (t : Ticket) (u : UpdatePayload) (now : Nat)
    (tid : String) (s : Status) (clientNow : Nat) :
    (u.status = some Status.COMPLETED →
      (Backend.applyUpdate t u now).completedAt = some now) ∧
    (u.status ≠ some Status.COMPLETED →
      (Backend.applyUpdate t u now).completedAt = t.completedAt) ∧
    (Backend.applyUpdate t (Svc.updateTicketStatusPayload tid s clientNow) now).completedAt =
      (if s = Status.COMPLETED then some now else t.completedAt) := by
  refine ⟨?_, ?_, ?_⟩
  · intro h
    simp [Backend.applyUpdate, h]
  · intro h
    simp [Backend.applyUpdate, if_neg h]
  · by_cases hs : s = Status.COMPLETED
    · simp [Backend.applyUpdate, Svc.updateTicketStatusPayload, hs]
    · simp [Backend.applyUpdate, Svc.updateTicketStatusPayload, hs]

/-- Closed instance of C10: a repeated COMPLETED update of the already
completed example ticket re-stamps completedAt with the later server time,
and an ACTIVE update preserves it verbatim. -/
theorem update_completedAt_stamp_iff_witness :
    (Backend.applyUpdate wT1 wU1 9).completedAt = some 9 ∧
    (Backend.applyUpdate wT1 wU2 9).completedAt = wT1.completedAt :=
  ⟨(update_completedAt_stamp_iff wT1 wU1 9 "1" Status.ACTIVE 0).1 rfl,
   (update_completedAt_stamp_iff wT1 wU2 9 "1" Status.ACTIVE 0).2.1 (by decide)⟩

/-- Example collection for the status-filter test: a SCHEDULED ticket. -/
def exSched : Ticket := { exTicket with id := "s1", ticketId := "TCK-010" }

/-- Example collection for the status-filter test: first COMPLETED ticket. -/
def exComp1 : Ticket :=
  { exTicket with id := "c1", ticketId := "TCK-011", status := Status.COMPLETED }

/-- Example collection for the status-filter test: second COMPLETED ticket. -/
def exComp2 : Ticket :=
  { exTicket with id := "c2", ticketId := "TCK-012", status := Status.COMPLETED }

/-- C2: a filtered fetch is the stable logical-AND filter of the source
collection: no filter returns it as is, the result is a sublist (relative
order preserved) whose members are exactly the tickets satisfying every
provided filter field, and filtering the [SCHEDULED, COMPLETED, COMPLETED]
example by status COMPLETED returns exactly the two COMPLETED tickets in
order. -/
theorem fetch_filter_and_semantics (db : List Ticket) (f : TicketFilters) :
    Svc.fetchTickets db none = db ∧
    (Svc.fetchTickets db (some f)).Sublist db ∧
    (∀ t, t ∈ Svc.fetchTickets db (some f) ↔ t ∈ db ∧ FilterSpecSat f t) ∧
    Svc.fetchTickets [exSched, exComp1, exComp2]
      (some { status := some [Status.COMPLETED] }) = [exComp1, exComp2] := by
  refine ⟨rfl, List.filter_sublist db, ?_, by decide⟩
  intro t
  rw [show Svc.fetchTickets db (some f) = db.filter (Svc.matchesFilters f) from rfl]
  rw [List.mem_filter]
  exact and_congr Iff.rfl (matchesFilters_iff f t)

/-- The ticket of the search example, whose description contains the text
"Payment gateway issue". -/
def exPaymentTicket : Ticket :=
  { exTicket with
      id := "p1"
      ticketId := "TCK-002"
      title := "Fix payment processing bug"
      description := "Payment gateway issue" }

/-- C7: the search filter matches a ticket exactly when the search string
occurs case-insensitively as a substring of the space-joined concatenation
of title, description, ticket code, customer name and CSAM name; searching
"payment" matches the ticket whose description has "Payment gateway issue". -/
theorem search_filter_iff_ci_substring (t : Ticket) (s : String) :
    (Svc.matchesFilters { search := some s } t = true ↔
      OccursCI s (Svc.searchTextOf t)) ∧
    Svc.matchesFilters { search := some "payment" } exPaymentTicket = true := by
  constructor
  · have hbase : Svc.matchesFilters { search := some s } t =
        (s == "" || strContains (lowerStr (Svc.searchTextOf t)) (lowerStr s)) := by
      simp [Svc.matchesFilters]
    rw [hbase]
    by_cases hs : s = ""
    · subst hs
      simp only [Bool.or_eq_true, beq_self_eq_true, true_or, true_iff]
      exact ⟨[], (lowerStr (Svc.searchTextOf t)).data, by simp [lowerStr]⟩
    · simp only [Bool.or_eq_true, beq_iff_eq, hs, false_or]
      exact strContains_lower_iff s (Svc.searchTextOf t)
  · decide

/-- C4: a create whose title is empty (likewise an empty ticketId) fails
with the validation error before any network call: the remote API is not
contacted, the server collection is untouched, the hook cache gains no
entry, and the caller receives null. -/
theorem create_empty_required_field_fails
    (input : CreateInput) (db : List Ticket) (newId : String) (now : Nat)
    (st : StoreState)
    (h : input.title = "" ∨ input.ticketId = "") :
    (clientCreate input db newId now).apiCalled = false ∧
    (clientCreate input db newId now).db = db ∧
    (∃ msg, (clientCreate input db newId now).result = Except.error msg) ∧
    (Hook.addTicket st (clientCreate input db newId now).result).1.tickets = st.tickets ∧
    (Hook.addTicket st (clientCreate input db newId now).result).2 = none := by
  have hsvc : ∃ msg, Svc.createTicket input = Except.error msg := by
    unfold Svc.createTicket
    rcases h with h | h
    · rw [if_pos (show trimChars input.title = "" by rw [h]; rfl)]
      exact ⟨_, rfl⟩
    · by_cases h2 : trimChars input.title = ""
      · rw [if_pos h2]
        exact ⟨_, rfl⟩
      · rw [if_neg h2, if_pos (show trimChars input.ticketId = "" by rw [h]; rfl)]
        exact ⟨_, rfl⟩
  obtain ⟨msg, hm⟩ := hsvc
  have hcc : clientCreate input db newId now =
      { result := Except.error msg, db := db, apiCalled := false } := by
    unfold clientCreate
    rw [hm]
  rw [hcc]
  exact ⟨rfl, rfl, ⟨msg, rfl⟩, rfl, rfl⟩

/-- Hook state used by the closed create examples. -/
def wSt : StoreState := { tickets := [exTicket], loading := false, lastError := none }

/-- A create input with the title left empty. -/
def wEmptyTitleInput : CreateInput := { ticketId := "TCK-100" }

/-- Closed instance of C4: creating with an empty title contacts no API,
changes no collection and resolves with null. -/
theorem create_empty_required_field_fails_witness :
    (clientCreate wEmptyTitleInput [exTicket] "z9" 3).apiCalled = false ∧
    (clientCreate wEmptyTitleInput [exTicket] "z9" 3).db = [exTicket] ∧
    (∃ msg, (clientCreate wEmptyTitleInput [exTicket] "z9" 3).result = Except.error msg) ∧
    (Hook.addTicket wSt
      (clientCreate wEmptyTitleInput [exTicket] "z9" 3).result).1.tickets = wSt.tickets ∧
    (Hook.addTicket wSt (clientCreate wEmptyTitleInput [exTicket] "z9" 3).result).2 = none :=
  create_empty_required_field_fails wEmptyTitleInput [exTicket] "z9" 3 wSt (Or.inl rfl)

/-- The body the service sends once the defaults for the omitted optional
fields are filled in. -/
def defaultedBody (input : CreateInput) : CreateInput :=
  { input with
    priority := some Priority.MEDIUM
    status := some Status.SCHEDULED
    notes := some []
    tags := some []
    subtasks := some [] }

/-- C5: a create that omits the optional fields is sent with the defaults
priority MEDIUM, status SCHEDULED and empty notes/tags/subtasks, and a valid
create followed by a refresh yields a collection containing a ticket with
the requested ticketCode, priority MEDIUM and status SCHEDULED. -/
theorem create_defaults_applied
    (input : CreateInput) (db : List Ticket) (newId : String) (now : Nat)
    (st : StoreState)
    (htitle : trimChars input.title ≠ "") (hcode : trimChars input.ticketId ≠ "")
    (hpr : input.priority = none) (hst : input.status = none)
    (hn : input.notes = none) (htg : input.tags = none) (hsb : input.subtasks = none)
    (hdup : input.ticketId ∉ db.map Ticket.ticketId) :
    (Svc.createTicket input = Except.ok (defaultedBody input) ∧
      (defaultedBody input).priority = some Priority.MEDIUM ∧
      (defaultedBody input).status = some Status.SCHEDULED ∧
      (defaultedBody input).notes = some [] ∧
      (defaultedBody input).tags = some [] ∧
      (defaultedBody input).subtasks = some []) ∧
    (∃ t, (clientCreate input db newId now).result = Except.ok t ∧
      t.ticketId = input.ticketId ∧ t.priority = Priority.MEDIUM ∧
      t.status = Status.SCHEDULED ∧
      t ∈ (Hook.fetchTickets st (Except.ok (clientCreate input db newId now).db)).tickets) := by
  have hsvc : Svc.createTicket input = Except.ok (defaultedBody input) := by
    unfold Svc.createTicket
    rw [if_neg htitle, if_neg hcode, hpr, hst, hn, htg, hsb]
    rfl
  refine ⟨⟨hsvc, rfl, rfl, rfl, rfl, rfl⟩, ?_⟩
  have hc1 : ¬(input.ticketId = "" ∨ input.title = "") := by
    rintro (h | h)
    · exact hcode (by rw [h]; rfl)
    · exact htitle (by rw [h]; rfl)
  have hc2 : ¬(db.any (fun t => t.ticketId == input.ticketId) = true) := by
    rw [List.any_eq_true]
    rintro ⟨t0, ht0, he⟩
    rw [beq_iff_eq] at he
    exact hdup (List.mem_map.mpr ⟨t0, ht0, he⟩)
  have hbk : Backend.createTicket db (defaultedBody input) newId now =
      Except.ok (db ++ [Backend.newTicket (defaultedBody input) newId now],
        Backend.newTicket (defaultedBody input) newId now) := by
    unfold Backend.createTicket
    rw [show (defaultedBody input).ticketId = input.ticketId from rfl,
      show (defaultedBody input).title = input.title from rfl,
      if_neg hc1, if_neg hc2]
  have hcc : clientCreate input db newId now =
      { result := Except.ok (Backend.newTicket (defaultedBody input) newId now)
        db := db ++ [Backend.newTicket (defaultedBody input) newId now]
        apiCalled := true } := by
    unfold clientCreate
    simp only [hsvc, hbk]
  refine ⟨Backend.newTicket (defaultedBody input) newId now, by rw [hcc], rfl, rfl, rfl, ?_⟩
  rw [hcc]
  simp [Hook.fetchTickets]

/-- The create input of the C5 example, giving only ticketCode and title. -/
def wDefaultsInput : CreateInput := { ticketId := "TCK-100", title := "X" }

/-- Closed instance of C5 at the documented example input: the defaulted
body is sent and the refreshed collection contains the created TCK-100
ticket with priority MEDIUM and status SCHEDULED. -/
theorem create_defaults_applied_witness :
    (Svc.createTicket wDefaultsInput = Except.ok (defaultedBody wDefaultsInput) ∧
      (defaultedBody wDefaultsInput).priority = some Priority.MEDIUM ∧
      (defaultedBody wDefaultsInput).status = some Status.SCHEDULED ∧
      (defaultedBody wDefaultsInput).notes = some [] ∧
      (defaultedBody wDefaultsInput).tags = some [] ∧
      (defaultedBody wDefaultsInput).subtasks = some []) ∧
    (∃ t, (clientCreate wDefaultsInput [exTicket] "z7" 4).result = Except.ok t ∧
      t.ticketId = wDefaultsInput.ticketId ∧ t.priority = Priority.MEDIUM ∧
      t.status = Status.SCHEDULED ∧
      t ∈ (Hook.fetchTickets wSt
        (Except.ok (clientCreate wDefaultsInput [exTicket] "z7" 4).db)).tickets) :=
  create_defaults_applied wDefaultsInput [exTicket] "z7" 4 wSt (by decide) (by decide)
    rfl rfl rfl rfl rfl (by decide)

/-- Subtasks of the 2-of-4 completion example. -/
def exSubtasks : List Subtask :=
  [ { id := "s1", text := "step one", completed := true, completedAt := some 1 },
    { id := "s2", text := "step two", completed := true, completedAt := some 2 },
    { id := "s3", text := "step three", completed := false, completedAt := none },
    { id := "s4", text := "step four", completed := false, completedAt := none } ]

/-- Ticket with 2 of 4 subtasks completed. -/
def ex24 : Ticket := { exTicket with id := "m1", ticketId := "TCK-024", subtasks := exSubtasks }

/-- C9: completionPercentage is the completed-subtask count divided by the
total subtask count, scaled to 0..100, and 0 with no subtasks; the 2-of-4
ticket yields 50 and a subtask-free ticket yields 0. -/
theorem completion_percentage_spec (t : Ticket) :
    (t.subtasks = [] → completionPercentage t = 0) ∧
    (t.subtasks ≠ [] → completionPercentage t =
      ((completedSubtasksCount t : ℚ) / (totalSubtasksCount t : ℚ)) * 100) ∧
    completionPercentage ex24 = 50 ∧
    completionPercentage exTicket = 0 := by
  refine ⟨?_, ?_, ?_, rfl⟩
  · intro h
    rw [completionPercentage, if_pos (by rw [h]; rfl)]
  · intro h
    rw [completionPercentage, if_neg (by simpa using h)]
  · rw [completionPercentage,
      if_neg (by decide : ¬ ex24.subtasks.length = 0),
      show completedSubtasksCount ex24 = 2 from rfl,
      show totalSubtasksCount ex24 = 4 from rfl]
    norm_num

/-- Closed instance of C9 at the example tickets. -/
theorem completion_percentage_spec_witness :
    completionPercentage exTicket = 0 ∧ completionPercentage ex24 = 50 :=
  ⟨(completion_percentage_spec exTicket).1 rfl, (completion_percentage_spec ex24).2.2.1⟩

/-- First seeded ticket of the uniqueness counterexample. -/
def cexA : Ticket := exTicket

/-- Second seeded ticket of the uniqueness counterexample. -/
def cexB : Ticket := { exTicket with id := "2", ticketId := "TCK-002" }

/-- Update payload renaming ticket 1's ticketCode to the code of ticket 2. -/
def cexPayload : UpdatePayload := { ticketId := some "TCK-002" }

/-- The collection after the code-duplicating update. -/
def cexDb2 : List Ticket := [Backend.applyUpdate cexA cexPayload 5, cexB]

/-- C8 counterexample: starting from a collection with unique ids and unique
ticketCodes, the update handler accepts a payload that sets an existing
ticket's ticketCode to another ticket's code — no uniqueness check — so
ticketCode uniqueness is not preserved by every update, contrary to the
claim. -/
theorem update_breaks_ticketCode_uniqueness :
    ([cexA, cexB].map Ticket.id).Nodup ∧
    ([cexA, cexB].map Ticket.ticketId).Nodup ∧
    Backend.updateTicket [cexA, cexB] "1" cexPayload 5 =
      some (cexDb2, Backend.applyUpdate cexA cexPayload 5) ∧
    ¬ (cexDb2.map Ticket.ticketId).Nodup := by
  refine ⟨by decide, by decide, rfl, by decide⟩

/-- C8 (amended): id and ticketCode uniqueness hold after a refresh of a
unique server collection and are preserved by create (which rejects an
already-present ticketCode and receives a fresh generated id) and by remove;
update preserves id uniqueness (ids are never rewritten), but not ticketCode
uniqueness, as the counterexample shows. -/
theorem uniqueness_invariants_amended :
    (∀ db input newId now db2 t,
      (db.map Ticket.ticketId).Nodup → (db.map Ticket.id).Nodup →
      newId ∉ db.map Ticket.id →
      Backend.createTicket db input newId now = Except.ok (db2, t) →
      (db2.map Ticket.ticketId).Nodup ∧ (db2.map Ticket.id).Nodup) ∧
    (∀ db input newId now, input.ticketId ∈ db.map Ticket.ticketId →
      (clientCreate input db newId now).db = db ∧
      ∃ msg, (clientCreate input db newId now).result = Except.error msg) ∧
    (∀ ts tid u now ts2 t2, Backend.updateTicket ts tid u now = some (ts2, t2) →
      ts2.map Ticket.id = ts.map Ticket.id) ∧
    (∀ ts tid ts2, Backend.deleteTicket ts tid = some ts2 →
      ((ts.map Ticket.ticketId).Nodup → (ts2.map Ticket.ticketId).Nodup) ∧
      ((ts.map Ticket.id).Nodup → (ts2.map Ticket.id).Nodup)) ∧
    (∀ st db, (db.map Ticket.ticketId).Nodup → (db.map Ticket.id).Nodup →
      ((Hook.fetchTickets st (Except.ok db)).tickets.map Ticket.ticketId).Nodup ∧
      ((Hook.fetchTickets st (Except.ok db)).tickets.map Ticket.id).Nodup) := by
  refine ⟨?_, ?_, ?_, ?_, ?_⟩
  · intro db input newId now db2 t hcode hid hnew hok
    rw [Backend.createTicket] at hok
    split at hok
    · exact absurd hok (by simp)
    · split at hok
      · exact absurd hok (by simp)
      · rename_i hA hB
        simp only [Except.ok.injEq, Prod.mk.injEq] at hok
        rw [← hok.1]
        simp only [List.map_append, List.map_cons, List.map_nil]
        constructor
        · rw [List.nodup_append]
          refine ⟨hcode, List.nodup_singleton _, ?_⟩
          intro x hx hx2
          apply hB
          simp only [List.any_eq_true, beq_iff_eq]
          obtain ⟨t0, ht0, htid⟩ := List.mem_map.mp hx
          simp only [List.mem_singleton] at hx2
          exact ⟨t0, ht0, by rw [htid, hx2]; rfl⟩
        · rw [List.nodup_append]
          refine ⟨hid, List.nodup_singleton _, ?_⟩
          intro x hx hx2
          simp only [List.mem_singleton] at hx2
          subst hx2
          exact hnew hx
  · intro db input newId now hmem
    cases hsvc : Svc.createTicket input with
    | error msg =>
      have hcc : clientCreate input db newId now =
          { result := Except.error msg, db := db, apiCalled := false } := by
        unfold clientCreate
        rw [hsvc]
      rw [hcc]
      exact ⟨rfl, msg, rfl⟩
    | ok body =>
      have hbid : body.ticketId = input.ticketId := by
        unfold Svc.createTicket at hsvc
        split at hsvc
        · exact absurd hsvc (by simp)
        · split at hsvc
          · exact absurd hsvc (by simp)
          · simp only [Except.ok.injEq] at hsvc
            rw [← hsvc]
      cases hbk : Backend.createTicket db body newId now with
      | error msg =>
        have hcc : clientCreate input db newId now =
            { result := Except.error msg, db := db, apiCalled := true } := by
          unfold clientCreate
          simp only [hsvc, hbk]
        rw [hcc]
        exact ⟨rfl, msg, rfl⟩
      | ok p =>
        exfalso
        rw [Backend.createTicket] at hbk
        split at hbk
        · exact absurd hbk (by simp)
        · split at hbk
          · exact absurd hbk (by simp)
          · rename_i hA hB
            apply hB
            simp only [List.any_eq_true, beq_iff_eq]
            obtain ⟨t0, ht0, htid⟩ := List.mem_map.mp hmem
            exact ⟨t0, ht0, by rw [htid, hbid]⟩
  · intro ts tid u now ts2 t2 h
    exact updateTicket_map_id ts tid u now ts2 t2 h
  · intro ts tid ts2 h
    exact ⟨fun hn => hn.sublist (deleteTicket_map_sublist ts tid ts2 h Ticket.ticketId),
      fun hn => hn.sublist (deleteTicket_map_sublist ts tid ts2 h Ticket.id)⟩
  · intro st db h1 h2
    exact ⟨h1, h2⟩

/-- Closed instance of the amended C8: creating a duplicate ticketCode on
the two-ticket collection leaves the server collection unchanged and fails. -/
theorem uniqueness_invariants_amended_witness :
    (clientCreate { ticketId := "TCK-002", title := "Y" } [cexA, cexB] "9" 6).db =
      [cexA, cexB] ∧
    ∃ msg, (clientCreate { ticketId := "TCK-002", title := "Y" } [cexA, cexB] "9" 6).result =
      Except.error msg :=
  uniqueness_invariants_amended.2.1 [cexA, cexB] { ticketId := "TCK-002", title := "Y" }
    "9" 6 (by decide)
